import Mathlib

/-!
Shallow embedding of `src/fairseq2/models/wav2vec2/masker.py`.

Tensors are modelled as nested lists of rationals: a feature batch of shape
`(N, S, M)` is a list of `N` rows, each a list of `S` feature vectors, each a
list of `M` scalars.  Boolean masks of shape `(R, C)` are lists of lists of
`Bool`.  PyTorch's in-place indexed assignment is modelled functionally (and,
for the aliasing behaviour of `forward`, additionally through an explicit heap
of tensors).  The random mask sampler `compute_mask` lives in
`fairseq2.nn.utils.mask`, outside the sources at hand, so it enters the model
as an abstract function of its request arguments.
-/

namespace Fairseq2

/-- A feature batch of shape `(N, S, M)`: rows of feature vectors of scalars. -/
abbrev Tensor3 := List (List (List ℚ))

/-- A boolean mask of shape `(R, C)`. -/
abbrev BoolMat := List (List Bool)

/-- Scalar of a 3-d tensor at `(n, s, m)`; `0` outside the tensor's extent. -/
def get3 (t : Tensor3) (n s m : ℕ) : ℚ :=
  ((t.getD n []).getD s []).getD m 0

/-- Entry of a boolean mask at `(n, s)`; `false` outside the mask's extent. -/
def get2b (u : BoolMat) (n s : ℕ) : Bool :=
  (u.getD n []).getD s false

/-- Index-aware map over a list; used to model writes addressed by position. -/
def mapWithIdx (f : ℕ → α → β) : List α → List β
  | [] => []
  | a :: as => f 0 a :: mapWithIdx (fun i x => f (i + 1) x) as

/-- `seqs.shape[0]`: the batch size `N`. -/
def dim0 (t : Tensor3) : ℕ := t.length

/-- `seqs.shape[1]`: the sequence length `S` (of a rectangular tensor). -/
def dim1 (t : Tensor3) : ℕ := (t.getD 0 []).length

/-- `seqs.shape[2]`: the model dimension `M` (of a rectangular tensor). -/
def dim2 (t : Tensor3) : ℕ := ((t.getD 0 []).getD 0 []).length

/-- The arguments of one call to `compute_mask` (`fairseq2.nn.utils.mask`):
requested shape `(rows, cols)`, span length, maximum mask probability,
optional per-row valid lengths, and minimum number of spans per row.  The
`device` argument carries no mathematical content and is omitted. -/
structure MaskRequest where
  rows : ℕ
  cols : ℕ
  span_len : ℤ
  max_mask_prob : ℚ
  row_lens : Option (List ℤ)
  min_num_spans : ℕ
  deriving DecidableEq, Repr

/-- Modelled from the spec: the mask-span sampler `compute_mask` of
`fairseq2.nn.utils.mask` is not among the sources at hand; only its contract
is specified (a boolean array of the requested shape comes back, well-shaped
even for unmaskable rows, and `forward` asserts the result is present).  It is
therefore modelled as an abstract function from the request to a boolean
mask; its randomness is the choice of the function. -/
abbrev ComputeMask := MaskRequest → BoolMat

/-- The shape clause of the sampler contract: the returned mask has exactly
the requested shape `(rows, cols)`. -/
def ComputeMaskShapeOk (cm : ComputeMask) : Prop :=
  ∀ r : MaskRequest, (cm r).length = r.rows ∧ ∀ u ∈ cm r, u.length = r.cols

/-- State of a constructed `Wav2Vec2Masker` module (its fields at lines
21-25 of `masker.py`), floats as rationals. -/
structure Wav2Vec2Masker where
  model_dim : ℕ
  temporal_span_len : ℤ
  max_temporal_mask_prob : ℚ
  temporal_mask_embed : List ℚ
  spatial_span_len : ℤ
  max_spatial_mask_prob : ℚ
  deriving DecidableEq, Repr

/-- The message of the `ValueError` raised at line 55 of `masker.py`. -/
def maxTemporalMaskProbError : String :=
  "max_temporal_mask_prob must be greater than 0."

/-- `Wav2Vec2Masker.__init__` (lines 27-67): rejects
`max_temporal_mask_prob == 0.0`, stores the remaining hyperparameters as
given, and fills `temporal_mask_embed` with `model_dim` sampled values
(`reset_parameters` draws them uniformly; the draw is modelled by the
explicit stream `f` of sampled values). -/
def Wav2Vec2Masker.init (model_dim : ℕ) (temporal_span_len : ℤ)
    (max_temporal_mask_prob : ℚ) (spatial_span_len : ℤ)
    (max_spatial_mask_prob : ℚ) (f : ℕ → ℚ) :
    Except String Wav2Vec2Masker :=
  if max_temporal_mask_prob = 0 then
    .error maxTemporalMaskProbError
  else
    .ok ⟨model_dim, temporal_span_len, max_temporal_mask_prob,
      (List.range model_dim).map f, spatial_span_len, max_spatial_mask_prob⟩

/-- The request of the temporal `compute_mask` call (lines 95-102):
shape `(batch_size, seq_len)`, span length and probability from the module's
temporal hyperparameters, row lengths `seq_lens`, minimum two spans. -/
def temporalMaskRequest (k : Wav2Vec2Masker) (seqs : Tensor3)
    (seq_lens : Option (List ℤ)) : MaskRequest :=
  ⟨dim0 seqs, dim1 seqs, k.temporal_span_len, k.max_temporal_mask_prob,
    seq_lens, 2⟩

/-- The request of the spatial `compute_mask` call (lines 110-116):
shape `(batch_size, model_dim)`, span length and probability from the module's
spatial hyperparameters, no row lengths, minimum two spans. -/
def spatialMaskRequest (k : Wav2Vec2Masker) (seqs : Tensor3) : MaskRequest :=
  ⟨dim0 seqs, dim2 seqs, k.spatial_span_len, k.max_spatial_mask_prob,
    none, 2⟩

/-- Line 106, `seqs[temporal_mask] = self.temporal_mask_embed`: every feature
vector at a position `(n, s)` where the mask is true becomes the embedding
vector (the embedding broadcasts across the feature vector slot). -/
def writeTemporal (seqs : Tensor3) (u : BoolMat) (e : List ℚ) : Tensor3 :=
  mapWithIdx
    (fun n row => mapWithIdx (fun s vec => if get2b u n s then e else vec) row)
    seqs

/-- Lines 120-122, `spatial_mask.unsqueeze(1).expand(-1, seq_len, -1)` then
`seqs[spatial_mask] = 0.0`: the `(N, M)` mask broadcasts across the sequence
axis; every scalar at `(n, s, m)` with the mask true at `(n, m)` becomes 0. -/
def zeroSpatial (seqs : Tensor3) (u : BoolMat) : Tensor3 :=
  mapWithIdx
    (fun n row =>
      row.map (fun vec => mapWithIdx (fun m x => if get2b u n m then 0 else x) vec))
    seqs

/-- `Wav2Vec2Masker.forward` (lines 73-124), value level: computes the
temporal mask from the temporal request, overwrites temporally masked
positions with the embedding, then, only when `max_spatial_mask_prob > 0.0`,
computes the spatial mask from the spatial request and zeroes its broadcast
positions; returns the masked batch with the temporal mask (the spatial mask
is never returned). -/
def Wav2Vec2Masker.forward (cm : ComputeMask) (self : Wav2Vec2Masker)
    (seqs : Tensor3) (seq_lens : Option (List ℤ)) : Tensor3 × BoolMat :=
  let temporal_mask := cm (temporalMaskRequest self seqs seq_lens)
  let seqs1 := writeTemporal seqs temporal_mask self.temporal_mask_embed
  let seqs2 :=
    if 0 < self.max_spatial_mask_prob then
      zeroSpatial seqs1 (cm (spatialMaskRequest self seqs))
    else seqs1
  (seqs2, temporal_mask)

/-- A heap of tensors: indexed assignment on a PyTorch tensor mutates the
caller's object, so `forward`'s effect is modelled on a heap whose cells are
tensors and where the caller passes a reference (index). -/
abbrev Heap := List Tensor3

/-- `Wav2Vec2Masker.forward`, heap level: the masked writes of lines 106 and
122 land in the caller's cell `i`, and the first returned component is the
same reference `i`, not a fresh cell. -/
def Wav2Vec2Masker.forwardInPlace (cm : ComputeMask) (self : Wav2Vec2Masker)
    (h : Heap) (i : ℕ) (seq_lens : Option (List ℤ)) : Heap × ℕ × BoolMat :=
  let r := Wav2Vec2Masker.forward cm self (h.getD i []) seq_lens
  (h.set i r.1, i, r.2)

/-- The feature vectors of one row at the positions its mask row marks true,
in order: one row's share of PyTorch's `x[temporal_mask]`. -/
def selectRow (row : List (List ℚ)) (u : List Bool) : List (List ℚ) :=
  (row.zip u).filterMap (fun q => if q.2 then some q.1 else none)

/-- `x[temporal_mask]` for a 3-d `x` and a 2-d boolean mask: the masked
feature vectors in row-major order of their positions. -/
def boolIndex2 (x : Tensor3) (u : BoolMat) : List (List ℚ) :=
  ((x.zip u).map (fun p => selectRow p.1 p.2)).flatten

/-- `Tensor.unflatten(0, (n, -1))`: splits the leading axis into `n` equal
groups, inferring the group size; fails (a PyTorch runtime error) when the
leading extent is not divisible into `n` equal parts. -/
def unflatten0 (n : ℕ) (x : List α) : Option (List (List α)) :=
  if 0 < n ∧ x.length % n = 0 then
    some ((List.range n).map (fun i => (x.drop (i * (x.length / n))).take (x.length / n)))
  else none

/-- `apply_temporal_mask` (lines 131-133):
`x[temporal_mask].unflatten(0, (x.size(0), -1))`. -/
def apply_temporal_mask (x : Tensor3) (temporal_mask : BoolMat) :
    Option Tensor3 :=
  unflatten0 x.length (boolIndex2 x temporal_mask)

/-! ### Pointwise behaviour of the indexed writes -/

theorem getElem?_mapWithIdx (f : ℕ → α → β) (l : List α) (n : ℕ) :
    (mapWithIdx f l)[n]? = l[n]?.map (f n) := by
  induction l generalizing f n with
  | nil => simp [mapWithIdx]
  | cons a as ih =>
    cases n with
    | zero => simp [mapWithIdx]
    | succ k => simpa [mapWithIdx] using ih (fun i x => f (i + 1) x) k

theorem length_mapWithIdx (f : ℕ → α → β) (l : List α) :
    (mapWithIdx f l).length = l.length := by
  induction l generalizing f with
  | nil => rfl
  | cons a as ih => simpa [mapWithIdx] using ih (fun i x => f (i + 1) x)

theorem getD_mapWithIdx (f : ℕ → α → β) (l : List α) (n : ℕ) (d : α) (e : β)
    (h : f n d = e) : (mapWithIdx f l).getD n e = f n (l.getD n d) := by
  rw [List.getD_eq_getElem?_getD, List.getD_eq_getElem?_getD,
    getElem?_mapWithIdx]
  cases l[n]? <;> simp [h]

theorem get3_writeTemporal_false (x : Tensor3) (u : BoolMat) (e : List ℚ)
    (n s m : ℕ) (h : get2b u n s = false) :
    get3 (writeTemporal x u e) n s m = get3 x n s m := by
  unfold get3 writeTemporal
  rw [getD_mapWithIdx _ x n [] [] rfl, getD_mapWithIdx _ _ s [] [] (by simp [h])]
  simp [h]

theorem get3_writeTemporal_true (x : Tensor3) (u : BoolMat) (e : List ℚ)
    (n s m : ℕ) (hs : s < (x.getD n []).length)
    (h : get2b u n s = true) :
    get3 (writeTemporal x u e) n s m = e.getD m 0 := by
  unfold get3 writeTemporal
  rw [getD_mapWithIdx _ x n [] [] rfl]
  have : (mapWithIdx (fun s vec => if get2b u n s then e else vec)
      (x.getD n [])).getD s [] = e := by
    rw [List.getD_eq_getElem?_getD, getElem?_mapWithIdx,
      List.getElem?_eq_getElem hs]
    simp [h]
  rw [this]

theorem get3_zeroSpatial_false (x : Tensor3) (u : BoolMat) (n s m : ℕ)
    (h : get2b u n m = false) :
    get3 (zeroSpatial x u) n s m = get3 x n s m := by
  unfold get3 zeroSpatial
  rw [getD_mapWithIdx _ x n [] [] rfl]
  rw [List.getD_eq_getElem?_getD ((x.getD n []).map _),
    List.getD_eq_getElem?_getD (x.getD n []), List.getElem?_map]
  cases (x.getD n [])[s]? with
  | none => rfl
  | some vec =>
    simp only [Option.map_some', Option.getD_some]
    rw [getD_mapWithIdx _ vec m 0 0 (by simp)]
    simp [h]

theorem get3_zeroSpatial_true (x : Tensor3) (u : BoolMat) (n s m : ℕ)
    (h : get2b u n m = true) :
    get3 (zeroSpatial x u) n s m = 0 := by
  unfold get3 zeroSpatial
  rw [getD_mapWithIdx _ x n [] [] rfl]
  rw [List.getD_eq_getElem?_getD ((x.getD n []).map _), List.getElem?_map]
  cases (x.getD n [])[s]? with
  | none => rfl
  | some vec =>
    simp only [Option.map_some', Option.getD_some]
    rw [getD_mapWithIdx _ vec m 0 0 (by simp)]
    simp [h]

/-- The batch component of `forward`, with the `let`-chain resolved. -/
theorem forward_fst (cm : ComputeMask) (k : Wav2Vec2Masker) (x : Tensor3)
    (l : Option (List ℤ)) :
    (Wav2Vec2Masker.forward cm k x l).1 =
      if 0 < k.max_spatial_mask_prob then
        zeroSpatial
          (writeTemporal x (cm (temporalMaskRequest k x l)) k.temporal_mask_embed)
          (cm (spatialMaskRequest k x))
      else
        writeTemporal x (cm (temporalMaskRequest k x l)) k.temporal_mask_embed :=
  rfl

/-- The mask component of `forward`: the temporal sampler output, as is. -/
theorem forward_snd (cm : ComputeMask) (k : Wav2Vec2Masker) (x : Tensor3)
    (l : Option (List ℤ)) :
    (Wav2Vec2Masker.forward cm k x l).2 = cm (temporalMaskRequest k x l) :=
  rfl

/-- A boolean mask has shape `(r, c)`. -/
def shape2Is (u : BoolMat) (r c : ℕ) : Prop :=
  u.length = r ∧ ∀ v ∈ u, v.length = c

/-! ### Regrouping a flattened selection (`apply_temporal_mask`) -/

theorem selectRow_cons (v : List ℚ) (vs : List (List ℚ)) (b : Bool)
    (bs : List Bool) :
    selectRow (v :: vs) (b :: bs) =
      if b then v :: selectRow vs bs else selectRow vs bs := by
  cases b <;> simp [selectRow]

theorem length_selectRow (row : List (List ℚ)) (u : List Bool)
    (h : u.length = row.length) :
    (selectRow row u).length = u.countP id := by
  induction row generalizing u with
  | nil =>
    cases u with
    | nil => rfl
    | cons b bs => simp at h
  | cons v vs ih =>
    cases u with
    | nil => simp at h
    | cons b bs =>
      have h' : bs.length = vs.length := by simpa using h
      rw [selectRow_cons]
      cases b
      · simpa [List.countP_cons] using ih bs h'
      · simpa [List.countP_cons] using ih bs h'

theorem length_flatten_const (L : List (List α)) (c : ℕ)
    (h : ∀ r ∈ L, r.length = c) : L.flatten.length = L.length * c := by
  induction L with
  | nil => simp
  | cons r rs ih =>
    have hr : r.length = c := h r (by simp)
    have := ih (fun v hv => h v (by simp [hv]))
    simp [List.flatten_cons, hr, this, Nat.succ_mul, Nat.add_comm]

theorem flatten_chunks (L : List (List α)) (c : ℕ)
    (h : ∀ r ∈ L, r.length = c) (i : ℕ) :
    (L.flatten.drop (i * c)).take c = L.getD i [] := by
  induction L generalizing i with
  | nil => simp
  | cons r rs ih =>
    have hr : r.length = c := h r (by simp)
    cases i with
    | zero =>
      simp only [Nat.zero_mul, List.drop_zero, List.flatten_cons]
      rw [← hr, List.take_left]
      rfl
    | succ j =>
      have hdrop : ((r ++ rs.flatten).drop (r.length + j * c)) =
          rs.flatten.drop (j * c) := List.drop_append _
      have harith : (j + 1) * c = r.length + j * c := by rw [hr]; ring
      simp only [List.flatten_cons, harith, hdrop,
        ih (fun v hv => h v (by simp [hv])) j, List.getD_cons_succ]

theorem range_map_getD (l : List α) (d : α) :
    (List.range l.length).map (fun i => l.getD i d) = l := by
  apply List.ext_getElem
  · simp
  · intro i h1 h2
    simp only [List.getElem_map, List.getElem_range]
    exact List.getD_eq_getElem l d h2

theorem unflatten0_flatten (L : List (List α)) (c : ℕ)
    (hL : ∀ r ∈ L, r.length = c) (h0 : 0 < L.length) :
    unflatten0 L.length L.flatten = some L := by
  have hlen : L.flatten.length = L.length * c := length_flatten_const L c hL
  have hcond : 0 < L.length ∧ L.flatten.length % L.length = 0 :=
    ⟨h0, by rw [hlen]; exact Nat.mul_mod_right _ _⟩
  unfold unflatten0
  rw [if_pos hcond]
  have hdiv : L.flatten.length / L.length = c := by
    rw [hlen]; exact Nat.mul_div_cancel_left c h0
  rw [hdiv]
  have hch : ∀ i, (L.flatten.drop (i * c)).take c = L.getD i [] :=
    flatten_chunks L c hL
  refine congrArg some ?_
  calc (List.range L.length).map (fun i => (L.flatten.drop (i * c)).take c)
      = (List.range L.length).map (fun i => L.getD i []) := by simp only [hch]
    _ = L := range_map_getD L []

/-! ### The claims -/

/-- C1 (code behaviour at the failing input): construction with the negative
`max_temporal_mask_prob = -1/2` succeeds and stores `-1/2`, because line 54
of `masker.py` only tests equality with `0.0`; the claim — like §7 of the
spec and the error message of line 55, "must be greater than 0" — requires
every non-positive value to be rejected. -/
theorem c1_negative_prob_accepted :
    Wav2Vec2Masker.init 4 10 (-(1/2)) 10 0 (fun _ => 0) =
      .ok ⟨4, 10, -(1/2), (List.range 4).map (fun _ => 0), 10, 0⟩ := by
  unfold Wav2Vec2Masker.init
  rw [if_neg (by norm_num : ¬(-(1/2) : ℚ) = 0)]

/-- C2 (counterexample): a forward call on a masker with
`max_spatial_mask_prob = 1` (reachable by construction, first conjunct) in
which the sampler marks position `(0, 0)` both temporally and spatially: the
returned temporal mask is true at `(0, 0)`, yet the feature value there is
`0`, not the embedding value `1` — the spatial zeroing of line 122 runs after
the temporal overwrite of line 106. -/
theorem c2_counterexample :
    Wav2Vec2Masker.init 1 10 (65/100) 10 1 (fun _ => 1) =
      .ok ⟨1, 10, 65/100, [1], 10, 1⟩ ∧
    get2b ((Wav2Vec2Masker.forward (fun _ => [[true]])
      ⟨1, 10, 65/100, [1], 10, 1⟩ [[[5]]] none).2) 0 0 = true ∧
    get3 ((Wav2Vec2Masker.forward (fun _ => [[true]])
      ⟨1, 10, 65/100, [1], 10, 1⟩ [[[5]]] none).1) 0 0 0 ≠
      (⟨1, 10, 65/100, [1], 10, 1⟩ :
        Wav2Vec2Masker).temporal_mask_embed.getD 0 0 := by
  refine ⟨?_, by decide, by decide⟩
  unfold Wav2Vec2Masker.init
  rw [if_neg (by norm_num : ¬(65/100 : ℚ) = 0)]
  rfl

/-- C2 (amended): after any forward call, every in-bounds position `(n, s)`
where the returned temporal mask is true carries the embedding value in every
channel `m` that the spatial pass leaves alone — that is, in every channel
when `max_spatial_mask_prob ≤ 0` (the spatial pass is skipped), and otherwise
in the channels the spatial mask does not select. -/
theorem c2_amended (cm : ComputeMask) (k : Wav2Vec2Masker) (x : Tensor3)
    (l : Option (List ℤ)) (n s m : ℕ)
    (hs : s < (x.getD n []).length)
    (ht : get2b (Wav2Vec2Masker.forward cm k x l).2 n s = true)
    (hsp : k.max_spatial_mask_prob ≤ 0 ∨
      get2b (cm (spatialMaskRequest k x)) n m = false) :
    get3 (Wav2Vec2Masker.forward cm k x l).1 n s m =
      k.temporal_mask_embed.getD m 0 := by
  rw [forward_snd] at ht
  rw [forward_fst]
  by_cases hp : 0 < k.max_spatial_mask_prob
  · rw [if_pos hp]
    rcases hsp with hle | hfalse
    · exact absurd hp (not_lt.mpr hle)
    · rw [get3_zeroSpatial_false _ _ _ _ _ hfalse]
      exact get3_writeTemporal_true _ _ _ _ _ _ hs ht
  · rw [if_neg hp]
    exact get3_writeTemporal_true _ _ _ _ _ _ hs ht

/-- C2 (witness for the amended theorem). -/
theorem c2_amended_witness :
    get3 (Wav2Vec2Masker.forward (fun _ => [[true]])
      ⟨1, 10, 65/100, [1], 10, 0⟩ [[[5]]] none).1 0 0 0 =
      (⟨1, 10, 65/100, [1], 10, 0⟩ :
        Wav2Vec2Masker).temporal_mask_embed.getD 0 0 :=
  c2_amended (fun _ => [[true]]) ⟨1, 10, 65/100, [1], 10, 0⟩ [[[5]]] none 0 0 0
    (by decide) (by decide) (Or.inl (by norm_num))

/-- C3: on a batch of `N > 0` rows and a mask of matching shape in which
every row marks the same number of positions, `apply_temporal_mask` succeeds
and returns exactly the per-row lists of masked feature vectors, in order:
the batch dimension is preserved and each row's masked positions are
flattened into the next axis.  The embedding is purely functional because the
source computes with non-mutating tensor operations only (advanced indexing
copies; `unflatten` reshapes), so neither input is mutated. -/
theorem c3_apply_temporal_mask (x : Tensor3) (u : BoolMat) (c : ℕ)
    (h0 : 0 < x.length) (hlen : u.length = x.length)
    (hrect : ∀ p ∈ x.zip u, p.2.length = p.1.length)
    (hc : ∀ v ∈ u, v.countP id = c) :
    apply_temporal_mask x u =
      some ((x.zip u).map (fun p => selectRow p.1 p.2)) := by
  have HLlen : ((x.zip u).map (fun p => selectRow p.1 p.2)).length = x.length := by
    simp [List.length_zip, hlen]
  have hL : ∀ r ∈ (x.zip u).map (fun p => selectRow p.1 p.2), r.length = c := by
    intro r hr
    rcases List.mem_map.mp hr with ⟨p, hp, rfl⟩
    rw [length_selectRow p.1 p.2 (hrect p hp)]
    exact hc p.2 (List.of_mem_zip hp).2
  have hmain := unflatten0_flatten ((x.zip u).map (fun p => selectRow p.1 p.2))
    c hL (by rw [HLlen]; exact h0)
  show unflatten0 x.length (boolIndex2 x u) = _
  have hb : boolIndex2 x u =
      ((x.zip u).map (fun p => selectRow p.1 p.2)).flatten := rfl
  rw [hb, ← HLlen]
  exact hmain

/-- C3 (witness): a `(2, 2, 1)` batch with one masked position per row. -/
theorem c3_apply_temporal_mask_witness :
    apply_temporal_mask [[[1], [2]], [[3], [4]]]
      [[true, false], [false, true]] =
      some (([[[1], [2]], [[3], [4]]].zip
        [[true, false], [false, true]]).map (fun p => selectRow p.1 p.2)) :=
  c3_apply_temporal_mask [[[1], [2]], [[3], [4]]]
    [[true, false], [false, true]] 1 (by decide) (by decide)
    (by decide) (by decide)

/-- C4: under the sampler's shape contract, the temporal mask a forward call
returns has shape exactly `(N, S)`, the first two dimensions of the input
batch. -/
theorem c4_mask_shape (cm : ComputeMask) (k : Wav2Vec2Masker) (x : Tensor3)
    (l : Option (List ℤ)) (hcm : ComputeMaskShapeOk cm) :
    shape2Is (Wav2Vec2Masker.forward cm k x l).2 (dim0 x) (dim1 x) :=
  hcm (temporalMaskRequest k x l)

/-- C4 (witness). -/
theorem c4_mask_shape_witness :
    shape2Is (Wav2Vec2Masker.forward
      (fun r => List.replicate r.rows (List.replicate r.cols true))
      ⟨1, 10, 65/100, [1], 10, 0⟩ [[[5], [6]]] none).2
      (dim0 [[[5], [6]]]) (dim1 [[[5], [6]]]) :=
  c4_mask_shape (fun r => List.replicate r.rows (List.replicate r.cols true))
    ⟨1, 10, 65/100, [1], 10, 0⟩ [[[5], [6]]] none
    (fun r => ⟨List.length_replicate _ _, fun v hv => by
      rw [List.eq_of_mem_replicate hv]; exact List.length_replicate _ _⟩)

/-- C5: on a masker whose `max_spatial_mask_prob` is `0`, a forward call
leaves every scalar outside the temporally masked positions exactly as it was
in the input batch. -/
theorem c5_unmasked_positions_unchanged (cm : ComputeMask)
    (k : Wav2Vec2Masker) (x : Tensor3) (l : Option (List ℤ)) (n s m : ℕ)
    (hk : k.max_spatial_mask_prob = 0)
    (hf : get2b (Wav2Vec2Masker.forward cm k x l).2 n s = false) :
    get3 (Wav2Vec2Masker.forward cm k x l).1 n s m = get3 x n s m := by
  rw [forward_snd] at hf
  rw [forward_fst, hk, if_neg (lt_irrefl 0)]
  exact get3_writeTemporal_false _ _ _ _ _ _ hf

/-- C5 (witness). -/
theorem c5_unmasked_positions_unchanged_witness :
    get3 (Wav2Vec2Masker.forward (fun _ => [[false]])
      ⟨1, 10, 65/100, [1], 10, 0⟩ [[[5]]] none).1 0 0 0 =
      get3 [[[5]]] 0 0 0 :=
  c5_unmasked_positions_unchanged (fun _ => [[false]])
    ⟨1, 10, 65/100, [1], 10, 0⟩ [[[5]]] none 0 0 0 rfl (by decide)

/-- C6: when `max_spatial_mask_prob > 0`, the `(N, M)` spatial mask is
broadcast across the whole sequence axis — at every sequence index `s`, every
scalar in a channel the spatial mask selects ends the call exactly `0`; since
the zeroing of line 122 runs after the temporal overwrite of line 106, this
holds in particular at positions the temporal mask also selects (second
conjunct). -/
theorem c6_spatial_zeroing (cm : ComputeMask) (k : Wav2Vec2Masker)
    (x : Tensor3) (l : Option (List ℤ)) (n s m : ℕ)
    (hp : 0 < k.max_spatial_mask_prob)
    (hm : get2b (cm (spatialMaskRequest k x)) n m = true) :
    get3 (Wav2Vec2Masker.forward cm k x l).1 n s m = 0 ∧
    (get2b (Wav2Vec2Masker.forward cm k x l).2 n s = true →
      get3 (Wav2Vec2Masker.forward cm k x l).1 n s m = 0) := by
  have h0 : get3 (Wav2Vec2Masker.forward cm k x l).1 n s m = 0 := by
    rw [forward_fst, if_pos hp]
    exact get3_zeroSpatial_true _ _ _ _ _ hm
  exact ⟨h0, fun _ => h0⟩

/-- C6 (witness). -/
theorem c6_spatial_zeroing_witness :
    get3 (Wav2Vec2Masker.forward (fun _ => [[true]])
      ⟨1, 10, 65/100, [1], 10, 1/2⟩ [[[5]]] none).1 0 0 0 = 0 ∧
    (get2b (Wav2Vec2Masker.forward (fun _ => [[true]])
      ⟨1, 10, 65/100, [1], 10, 1/2⟩ [[[5]]] none).2 0 0 = true →
      get3 (Wav2Vec2Masker.forward (fun _ => [[true]])
        ⟨1, 10, 65/100, [1], 10, 1/2⟩ [[[5]]] none).1 0 0 0 = 0) :=
  c6_spatial_zeroing (fun _ => [[true]]) ⟨1, 10, 65/100, [1], 10, 1/2⟩
    [[[5]]] none 0 0 0 (by norm_num) (by decide)

/-- C7: the temporal mask a forward call returns is the sampler's answer to
exactly this request: shape `(N, S)`, span length `temporal_span_len`, target
probability `max_temporal_mask_prob`, row lengths the supplied `seq_lens`,
and a minimum of `2` spans per row. -/
theorem c7_temporal_request (cm : ComputeMask) (k : Wav2Vec2Masker)
    (x : Tensor3) (l : Option (List ℤ)) :
    (Wav2Vec2Masker.forward cm k x l).2 =
      cm ⟨dim0 x, dim1 x, k.temporal_span_len, k.max_temporal_mask_prob,
        l, 2⟩ :=
  rfl

/-- C8: on the heap model, a forward call writes the masked batch into the
caller's cell `i` (in place), returns that same reference `i` — not a fresh
cell — as its batch component, and returns the temporal sampler output as its
only mask component; the spatial mask is not part of the result. -/
theorem c8_in_place (cm : ComputeMask) (k : Wav2Vec2Masker) (h : Heap)
    (i : ℕ) (l : Option (List ℤ)) (hi : i < h.length) :
    (Wav2Vec2Masker.forwardInPlace cm k h i l).2.1 = i ∧
    ((Wav2Vec2Masker.forwardInPlace cm k h i l).1).getD i [] =
      (Wav2Vec2Masker.forward cm k (h.getD i []) l).1 ∧
    (Wav2Vec2Masker.forwardInPlace cm k h i l).2.2 =
      cm (temporalMaskRequest k (h.getD i []) l) := by
  refine ⟨rfl, ?_, rfl⟩
  show (h.set i _).getD i [] = _
  rw [List.getD_eq_getElem?_getD, List.getElem?_set_self hi]
  rfl

/-- C8 (witness). -/
theorem c8_in_place_witness :
    (Wav2Vec2Masker.forwardInPlace (fun _ => [[true]])
      ⟨1, 10, 65/100, [1], 10, 0⟩ [[[[5]]]] 0 none).2.1 = 0 ∧
    ((Wav2Vec2Masker.forwardInPlace (fun _ => [[true]])
      ⟨1, 10, 65/100, [1], 10, 0⟩ [[[[5]]]] 0 none).1).getD 0 [] =
      (Wav2Vec2Masker.forward (fun _ => [[true]])
        ⟨1, 10, 65/100, [1], 10, 0⟩ ([[[[5]]]].getD 0 []) none).1 ∧
    (Wav2Vec2Masker.forwardInPlace (fun _ => [[true]])
      ⟨1, 10, 65/100, [1], 10, 0⟩ [[[[5]]]] 0 none).2.2 =
      (fun _ => [[true]] : ComputeMask)
        (temporalMaskRequest ⟨1, 10, 65/100, [1], 10, 0⟩
          ([[[[5]]]].getD 0 []) none) :=
  c8_in_place (fun _ => [[true]]) ⟨1, 10, 65/100, [1], 10, 0⟩ [[[[5]]]] 0
    none (by decide)

/-- C9 (counterexample): construction with both span lengths `0` succeeds —
`__init__` never validates the span lengths — and the constructed masker
violates the invariant `temporal_span_len > 0 ∧ spatial_span_len > 0`. -/
theorem c9_counterexample :
    Wav2Vec2Masker.init 4 0 (65/100) 0 0 (fun _ => 0) =
      .ok ⟨4, 0, 65/100, (List.range 4).map (fun _ => 0), 0, 0⟩ ∧
    ¬ (0 < (⟨4, 0, 65/100, (List.range 4).map (fun _ => 0), 0, 0⟩ :
          Wav2Vec2Masker).temporal_span_len ∧
        0 < (⟨4, 0, 65/100, (List.range 4).map (fun _ => 0), 0, 0⟩ :
          Wav2Vec2Masker).spatial_span_len) := by
  refine ⟨?_, by decide⟩
  unfold Wav2Vec2Masker.init
  rw [if_neg (by norm_num : ¬(65/100 : ℚ) = 0)]

/-- C9 (amended): construction does not validate span lengths — a
successfully constructed masker stores both span lengths exactly as passed,
so the invariant `temporal_span_len > 0 ∧ spatial_span_len > 0` holds exactly
when the caller passes positive span lengths. -/
theorem c9_amended (md : ℕ) (t : ℤ) (p : ℚ) (s : ℤ) (q : ℚ) (f : ℕ → ℚ)
    (k : Wav2Vec2Masker) (h : Wav2Vec2Masker.init md t p s q f = .ok k) :
    k.temporal_span_len = t ∧ k.spatial_span_len = s ∧
    ((0 < k.temporal_span_len ∧ 0 < k.spatial_span_len) ↔ (0 < t ∧ 0 < s)) := by
  unfold Wav2Vec2Masker.init at h
  by_cases hp : p = 0
  · rw [if_pos hp] at h
    exact absurd h (by simp)
  · rw [if_neg hp] at h
    injection h with h'
    subst h'
    exact ⟨rfl, rfl, Iff.rfl⟩

/-- C9 (witness for the amended theorem). -/
theorem c9_amended_witness :
    (⟨1, 3, 65/100, [0], 4, 0⟩ : Wav2Vec2Masker).temporal_span_len = 3 ∧
    (⟨1, 3, 65/100, [0], 4, 0⟩ : Wav2Vec2Masker).spatial_span_len = 4 ∧
    ((0 < (⟨1, 3, 65/100, [0], 4, 0⟩ : Wav2Vec2Masker).temporal_span_len ∧
      0 < (⟨1, 3, 65/100, [0], 4, 0⟩ : Wav2Vec2Masker).spatial_span_len) ↔
      (0 < (3:ℤ) ∧ 0 < (4:ℤ))) :=
  c9_amended 1 3 (65/100) 4 0 (fun _ => 0) ⟨1, 3, 65/100, [0], 4, 0⟩
    (by unfold Wav2Vec2Masker.init
        rw [if_neg (by norm_num : ¬(65/100 : ℚ) = 0)]
        rfl)

/-- C10: a negative `max_spatial_mask_prob` passes construction untouched
(only `max_temporal_mask_prob` is validated), and a forward call on the
resulting masker is identical to one on the same masker with
`max_spatial_mask_prob = 0`: the spatial branch tests `> 0.0`, so neither
performs spatial masking. -/
theorem c10_negative_spatial_prob (md : ℕ) (t : ℤ) (p : ℚ) (s : ℤ) (q : ℚ)
    (f : ℕ → ℚ) (cm : ComputeMask) (x : Tensor3) (l : Option (List ℤ))
    (hq : q < 0) (hp : p ≠ 0) :
    Wav2Vec2Masker.init md t p s q f =
      .ok ⟨md, t, p, (List.range md).map f, s, q⟩ ∧
    Wav2Vec2Masker.forward cm ⟨md, t, p, (List.range md).map f, s, q⟩ x l =
      Wav2Vec2Masker.forward cm ⟨md, t, p, (List.range md).map f, s, 0⟩ x l := by
  constructor
  · unfold Wav2Vec2Masker.init
    rw [if_neg hp]
  · have h1 : ¬ (0:ℚ) < q := not_lt.mpr hq.le
    simp [Wav2Vec2Masker.forward, temporalMaskRequest, h1]

/-- C10 (witness). -/
theorem c10_negative_spatial_prob_witness :
    Wav2Vec2Masker.init 1 10 (65/100) 10 (-1) (fun _ => 0) =
      .ok ⟨1, 10, 65/100, (List.range 1).map (fun _ => 0), 10, -1⟩ ∧
    Wav2Vec2Masker.forward (fun _ => [[true]])
      ⟨1, 10, 65/100, (List.range 1).map (fun _ => 0), 10, -1⟩ [[[5]]] none =
    Wav2Vec2Masker.forward (fun _ => [[true]])
      ⟨1, 10, 65/100, (List.range 1).map (fun _ => 0), 10, 0⟩ [[[5]]] none :=
  c10_negative_spatial_prob 1 10 (65/100) 10 (-1) (fun _ => 0)
    (fun _ => [[true]]) [[[5]]] none (by norm_num) (by norm_num)

end Fairseq2
